import Mathlib

/-!
Verification of the MiniSat satellite-tracking bridge (SatApplication).

The Python sources rotif.py, rigif.py and satif.py are shallowly embedded:
each method becomes a pure Lean function over an explicit state record.
Socket I/O is abstracted by an environment function mapping each command
datagram to the reply (`none` models a socket timeout), and every externally
visible effect (datagram sent, queue append, callback invocation, log line)
is recorded in an ordered action trace.  Writes to the deg_az / deg_el
fields are also recorded in the trace because the ordering properties of
the specification refer to them.  Python exceptions are modelled by an
`Option PyError` component: `none` means the code returned normally.
-/

namespace MiniSat

/-- Kinds of Python exception the embedded code can raise. -/
inductive PyError
  | typeError (msg : String)
  | valueError (msg : String)
  | attributeError (msg : String)
  | nameError (msg : String)
  | indexError
deriving DecidableEq, BEq, Repr

/-- Rendering of an exception, modelling Python str(e) up to wording. -/
def pyErrStr : PyError → String
  | .typeError m => "TypeError: " ++ m
  | .valueError m => "ValueError: " ++ m
  | .attributeError m => "AttributeError: " ++ m
  | .nameError m => "NameError: " ++ m
  | .indexError => "IndexError: list index out of range"

/-- Split a character list at every separator character (Python
    str.split(sep) semantics: empty segments are kept). -/
def splitChars (p : Char → Bool) : List Char → List (List Char)
  | [] => [[]]
  | c :: cs =>
    match splitChars p cs with
    | g :: gs => if p c then [] :: g :: gs else (c :: g) :: gs
    | [] => [[c]]

/-- Python s.split(sep) for a one-character separator. -/
def pySplitChar (s : String) (sep : Char) : List String :=
  (splitChars (fun c => c == sep) s.data).map (fun g => (⟨g⟩ : String))

/-- Whitespace characters recognised by Python str.split() (the forms that
    occur on this wire protocol). -/
def pyIsSpace (c : Char) : Bool :=
  c == ' ' || c == '\t' || c == '\n' || c == '\r'

/-- Python s.split() with no argument: split on whitespace runs, dropping
    empty tokens. -/
def pySplitWs (s : String) : List String :=
  ((splitChars pyIsSpace s.data).map (fun g => (⟨g⟩ : String))).filter
    (fun t => t ≠ "")

/-- Join strings with a separator (used to rebuild the unsplit remainder of
    a maxsplit split). -/
def joinSep (sep : String) : List String → String
  | [] => ""
  | [x] => x
  | x :: xs => x ++ sep ++ joinSep sep xs

/-- Python position.split(":", 2): at most two splits, the remainder is
    rejoined. -/
def pySplitColon2 (s : String) : List String :=
  match (splitChars (fun c => c == ':') s.data).map (fun g => (⟨g⟩ : String)) with
  | a :: b :: c :: rest => [a, b, joinSep ":" (c :: rest)]
  | l => l

/-- Python s.rstrip(chr) for the newline character: drop all trailing
    newlines. -/
def pyRstripNl (s : String) : String :=
  ⟨(s.data.reverse.dropWhile (fun c => c == '\n')).reverse⟩

/-- Accumulate a decimal digit string; `none` on any non-digit. -/
def digitsToNat : List Char → ℕ → Option ℕ
  | [], acc => some acc
  | c :: cs, acc =>
    if c.isDigit then digitsToNat cs (acc * 10 + (c.toNat - 48)) else none

/-- Python int(s) on a string: an optional minus sign followed by decimal
    digits (the forms that occur on this wire protocol); `none` models the
    ValueError raised on anything else. -/
def pyInt? (s : String) : Option Int :=
  match s.data with
  | [] => none
  | c :: cs =>
    if c = '-' then
      match cs with
      | [] => none
      | _ => (digitsToNat cs 0).map (fun n => -(n : Int))
    else (digitsToNat (c :: cs) 0).map (fun n => (n : Int))

/-- Numeric value of an all-digit character list. -/
def digitsVal (cs : List Char) : ℕ :=
  cs.foldl (fun a c => a * 10 + (c.toNat - 48)) 0

/-- An exact decimal number mant / 10 ^ exp: the value of a Python float
    literal.  The IEEE-754 rounding of the real float type is abstracted
    away (it never changes the truncated integer at the magnitudes this
    protocol uses). -/
structure DecFloat where
  mant : Int
  exp : ℕ
deriving DecidableEq, BEq, Repr

/-- Python float(s) on a decimal literal: optional sign, integer part,
    optional fractional part.  `none` models the ValueError raised on
    anything else. -/
def pyFloat? (s : String) : Option DecFloat :=
  let signBody : Bool × List Char :=
    match s.data with
    | c :: cs => if c = '-' then (true, cs) else (false, s.data)
    | [] => (false, [])
  let neg := signBody.1
  let sign : Int := if neg then -1 else 1
  match splitChars (fun c => c == '.') signBody.2 with
  | [i] =>
    if i.isEmpty then none
    else if i.all Char.isDigit then
      some { mant := sign * Int.ofNat (digitsVal i), exp := 0 }
    else none
  | [i, f] =>
    if i.isEmpty && f.isEmpty then none
    else if i.all Char.isDigit && f.all Char.isDigit then
      some { mant := sign *
               Int.ofNat (digitsVal i * 10 ^ f.length + digitsVal f),
             exp := f.length }
    else none
  | _ => none

/-- Python int() applied to a float value: truncation toward zero. -/
def pyTruncF (d : DecFloat) : Int :=
  if d.mant < 0 then -(Int.ofNat (d.mant.natAbs / 10 ^ d.exp))
  else Int.ofNat (d.mant.natAbs / 10 ^ d.exp)

/-- Python str(n) for an integer. -/
def pyStr (n : Int) : String := toString n

/-- Python formatting of the two-line position reply
    percent-f newline percent-f newline, applied to integer-valued
    positions: each renders as the integer followed by ".000000". -/
def posReply (a b : Int) : String :=
  pyStr a ++ ".000000\n" ++ pyStr b ++ ".000000\n"

/-! ## defs.py -/

/-- The status constants of defs.py used by the rotator interface. -/
inductive RotStatus
  | online
  | offline
  | pending
  | startingCal
  | calFailed
  | failed
  | waiting
deriving DecidableEq, BEq, Repr

def AZ_MOTOR_SPEED : Int := 30
def EL_MOTOR_SPEED : Int := 20

/-! ## rotif.py : RotIf and EvntIf -/

/-- The controller at the far end of the UDP command socket: the reply
    datagram for each command, `none` modelling a socket timeout. -/
def Controller := String → Option String

/-- RotIf.__doCommand: send the command datagram, await one reply.
    On timeout return (False, "nak"), on success (True, decoded reply). -/
def doCommand (env : Controller) (cmd : String) : Bool × String :=
  match env cmd with
  | some d => (true, d)
  | none => (false, "nak")

/-- The dynamically typed __calaz / __calel fields: the int sentinel -1
    initially, the raw reply string after a calibration. -/
inductive CalVal
  | intVal (n : Int)
  | strVal (s : String)
deriving DecidableEq, BEq, Repr

/-- The mutable fields of RotIf touched by the embedded methods. -/
structure RotState where
  status : RotStatus
  calaz : CalVal
  calel : CalVal
  degaz : Int
  degel : Int
deriving DecidableEq, BEq, Repr

/-- RotIf.__init__ field values. -/
def rotInit : RotState :=
  { status := .offline, calaz := .intVal (-1), calel := .intVal (-1),
    degaz := -1, degel := -1 }

/-- Observable actions of the rotator interface, in program order: wire
    datagrams, the position callback, the state callback, log lines, and
    (because the ordering claims refer to them) the deg_az / deg_el
    writes. -/
inductive RotAction
  | wire (cmd : String)
  | posEvent (axis : String) (deg : Int)
  | stateCb (s : RotStatus)
  | logMsg (s : String)
  | setDegAz (n : Int)
  | setDegEl (n : Int)
deriving DecidableEq, BEq, Repr

/-- The wire datagrams of a trace, in order. -/
def wires (tr : List RotAction) : List String :=
  tr.filterMap (fun a => match a with | .wire c => some c | _ => none)

/-- RotIf.getPos: reply into the supplied sink with the current position
    when online, otherwise echo the hint values.  The sink strings are
    returned as the third component; the state is returned unchanged, as
    the Python method assigns nothing. -/
def getPos (st : RotState) (az el : Int) : Bool × RotState × List String :=
  if st.status = .online then (true, st, [posReply st.degaz st.degel])
  else (true, st, [posReply az el])

/-- RotIf.setCalAz: preset the azimuth calibration pulse count. -/
def setCalAz (env : Controller) (st : RotState) (calibration : Int) :
    (Bool × String) × RotState × List RotAction :=
  if st.status = .offline then ((true, "ack"), st, [])
  else
    let cmd := pyStr calibration ++ "a"
    (doCommand env cmd, st, [.wire cmd])

/-- RotIf.setCalEl: preset the elevation calibration pulse count. -/
def setCalEl (env : Controller) (st : RotState) (calibration : Int) :
    (Bool × String) × RotState × List RotAction :=
  if st.status = .offline then ((true, "ack"), st, [])
  else
    let cmd := pyStr calibration ++ "b"
    (doCommand env cmd, st, [.wire cmd])

/-- RotIf.setAzSpeed: set azimuth motor speed as percent of full speed. -/
def setAzSpeed (env : Controller) (st : RotState) (speed : Int) :
    (Bool × String) × RotState × List RotAction :=
  if st.status = .offline then ((true, "ack"), st, [])
  else
    let cmd := pyStr speed ++ "n"
    (doCommand env cmd, st, [.wire cmd])

/-- RotIf.setElSpeed: set elevation motor speed as percent of full speed. -/
def setElSpeed (env : Controller) (st : RotState) (speed : Int) :
    (Bool × String) × RotState × List RotAction :=
  if st.status = .offline then ((true, "ack"), st, [])
  else
    let cmd := pyStr speed ++ "m"
    (doCommand env cmd, st, [.wire cmd])

/-- RotIf.calibrateAz: run a blocking azimuth calibration; on success zero
    the position and store the measured pulse count (the raw reply
    string). -/
def calibrateAz (env : Controller) (st : RotState) :
    Bool × RotState × List RotAction :=
  let r := doCommand env "calaz"
  if r.1 = false ∨ r.2 = "nak" then (false, st, [.wire "calaz"])
  else
    (true, { st with degaz := 0, calaz := .strVal r.2 },
     [.wire "calaz", .setDegAz 0])

/-- RotIf.calibrateEl: elevation counterpart of calibrateAz. -/
def calibrateEl (env : Controller) (st : RotState) :
    Bool × RotState × List RotAction :=
  let r := doCommand env "calel"
  if r.1 = false ∨ r.2 = "nak" then (false, st, [.wire "calel"])
  else
    (true, { st with degel := 0, calel := .strVal r.2 },
     [.wire "calel", .setDegEl 0])

/-- RotIf.homeAz: drive azimuth to the limit-switch home.  Whatever the
    command result, the last known position is set to 0 and a position
    event (az, 0) is delivered to the position sink. -/
def homeAz (env : Controller) (st : RotState) :
    (Bool × String) × RotState × List RotAction :=
  if st.status = .offline then ((true, "ack"), st, [])
  else
    let r := doCommand env "homeaz"
    (r, { st with degaz := 0 }, [.wire "homeaz", .setDegAz 0, .posEvent "az" 0])

/-- RotIf.homeEl: elevation counterpart of homeAz. -/
def homeEl (env : Controller) (st : RotState) :
    (Bool × String) × RotState × List RotAction :=
  if st.status = .offline then ((true, "ack"), st, [])
  else
    let r := doCommand env "homeel"
    (r, { st with degel := 0 }, [.wire "homeel", .setDegEl 0, .posEvent "el" 0])

/-- RotIf.setPosAz: if the azimuth position is unknown (-1), home first;
    then, unless offline, send the move datagram degrees ++ "z". -/
def setPosAz (env : Controller) (st : RotState) (azimuth : Int) :
    (Bool × String) × RotState × List RotAction :=
  let go : RotState → List RotAction →
      (Bool × String) × RotState × List RotAction := fun st1 tr =>
    if st1.status = .offline then ((true, "ack"), st1, tr)
    else
      let cmd := pyStr azimuth ++ "z"
      (doCommand env cmd, st1, tr ++ [.wire cmd])
  if st.degaz = -1 then
    let h := homeAz env st
    if h.1.1 = false ∨ h.1.2 = "nak" then (h.1, h.2.1, h.2.2)
    else go { h.2.1 with degaz := 0 } (h.2.2 ++ [.setDegAz 0])
  else go st []

/-- RotIf.setPosEl: elevation counterpart of setPosAz, datagram
    degrees ++ "e". -/
def setPosEl (env : Controller) (st : RotState) (elevation : Int) :
    (Bool × String) × RotState × List RotAction :=
  let go : RotState → List RotAction →
      (Bool × String) × RotState × List RotAction := fun st1 tr =>
    if st1.status = .offline then ((true, "ack"), st1, tr)
    else
      let cmd := pyStr elevation ++ "e"
      (doCommand env cmd, st1, tr ++ [.wire cmd])
  if st.degel = -1 then
    let h := homeEl env st
    if h.1.1 = false ∨ h.1.2 = "nak" then (h.1, h.2.1, h.2.2)
    else go { h.2.1 with degel := 0 } (h.2.2 ++ [.setDegEl 0])
  else go st []

/-- The persisted calibration section of the configuration:
    defs.config["Calibration"]["AZ"] / ["EL"], `none` when the key is
    absent. -/
structure CalConfig where
  az : Option Int
  el : Option Int

/-- RotIf.coldStart: no-op when offline; set both motor speeds (either
    failure transitions to CAL_FAILED and aborts); then either run both
    calibrations (when a saved value is missing) or preset the two saved
    values; on full success transition to ONLINE. -/
def coldStart (env : Controller) (cfg : CalConfig) (st : RotState) :
    Bool × RotState × List RotAction :=
  if st.status = .offline then (true, st, [])
  else
    let s1 := setAzSpeed env st AZ_MOTOR_SPEED
    if s1.1.1 = false ∨ s1.1.2 = "nak" then
      (false, { s1.2.1 with status := .calFailed },
       s1.2.2 ++ [.logMsg "Failed to set azimuth motor speed!",
                  .stateCb .calFailed])
    else
      let s2 := setElSpeed env s1.2.1 EL_MOTOR_SPEED
      if s2.1.1 = false ∨ s2.1.2 = "nak" then
        (false, { s2.2.1 with status := .calFailed },
         s1.2.2 ++ s2.2.2 ++ [.logMsg "Failed to set elevation motor speed!",
                              .stateCb .calFailed])
      else
        match cfg.az, cfg.el with
        | some caz, some cel =>
          let p1 := setCalAz env s2.2.1 caz
          if p1.1.1 = false ∨ p1.1.2 = "nak" then
            (false, { p1.2.1 with status := .calFailed },
             s1.2.2 ++ s2.2.2 ++ p1.2.2 ++ [.stateCb .calFailed])
          else
            let p2 := setCalEl env p1.2.1 cel
            if p2.1.1 = false ∨ p2.1.2 = "nak" then
              (false, { p2.2.1 with status := .calFailed },
               s1.2.2 ++ s2.2.2 ++ p1.2.2 ++ p2.2.2 ++ [.stateCb .calFailed])
            else
              (true, { p2.2.1 with status := .online },
               s1.2.2 ++ s2.2.2 ++ p1.2.2 ++ p2.2.2 ++ [.stateCb .online])
        | _, _ =>
          let c1 := calibrateAz env s2.2.1
          if c1.1 = false then
            (false, { c1.2.1 with status := .calFailed },
             s1.2.2 ++ s2.2.2 ++ c1.2.2 ++
               [.logMsg "Failed to calibrate azimuth motor!",
                .stateCb .calFailed])
          else
            let c2 := calibrateEl env c1.2.1
            if c2.1 = false then
              (false, { c2.2.1 with status := .calFailed },
               s1.2.2 ++ s2.2.2 ++ c1.2.2 ++ c2.2.2 ++
                 [.logMsg "Failed to calibrate elevation motor!",
                  .stateCb .calFailed])
            else
              (true, { c2.2.1 with status := .online },
               s1.2.2 ++ s2.2.2 ++ c1.2.2 ++ c2.2.2 ++ [.stateCb .online])

/-- RotIf.__event_callback: split the datagram payload on ":" (maxsplit 2),
    invoke the position callback with (axis, int(value)), then update the
    matching deg_* field.  A missing second field raises IndexError before
    the try block can help; a non-integer value raises ValueError, which is
    caught, but the except block calls msgq.append with two arguments and
    so raises TypeError out of the handler.  The intended warning line is
    never enqueued. -/
def event_callback (st : RotState) (position : String) :
    RotState × List RotAction × Option PyError :=
  match pySplitColon2 position with
  | a :: v :: _ =>
    match pyInt? v with
    | none => (st, [], some (.typeError "append takes exactly one argument"))
    | some n =>
      if a = "az" then
        ({ st with degaz := n }, [.posEvent a n, .setDegAz n], none)
      else if a = "el" then
        ({ st with degel := n }, [.posEvent a n, .setDegEl n], none)
      else (st, [.posEvent a n], none)
  | _ => (st, [], some .indexError)

/-- The rotator commands the protocol server enqueues (the subset of the
    RotIf dispatch table reachable from satif.py). -/
inductive Command
  | getPos (az el : Int)
  | setPosAz (deg : Int)
  | setPosEl (deg : Int)
deriving DecidableEq, BEq, Repr

/-- One step of the RotIf.run dispatch loop: execute one queued command.
    Returns the new state, the rotator action trace, and the strings
    appended to the getPos reply sink.  (The run loop logs only when a
    handler returns a falsy value; these three handlers always return a
    truthy value, so that branch is unreachable for them.) -/
def execCommand (env : Controller) (st : RotState) :
    Command → RotState × List RotAction × List String
  | .getPos az el =>
    let r := getPos st az el
    (r.2.1, [], r.2.2)
  | .setPosAz d =>
    let r := setPosAz env st d
    (r.2.1, r.2.2, [])
  | .setPosEl d =>
    let r := setPosEl env st d
    (r.2.1, r.2.2, [])

/-- Execute a queue of rotator commands in FIFO order, concatenating the
    traces. -/
def execCommands (env : Controller) (st : RotState) :
    List Command → RotState × List RotAction × List String
  | [] => (st, [], [])
  | c :: cs =>
    let r1 := execCommand env st c
    let r2 := execCommands env r1.1 cs
    (r2.1, r1.2.1 ++ r2.2.1, r1.2.2 ++ r2.2.2)

/-- The deg_* write action matching a position event on the given axis. -/
def degWrite (axis : String) (n : Int) : RotAction :=
  if axis = "az" then .setDegAz n else .setDegEl n

/-- The ordering property claimed of the event handler: the deg_* write
    for (axis, n) occurs strictly earlier in the action trace than the
    position-sink callback for (axis, n). -/
def updatedBeforeObserved (tr : List RotAction) (axis : String) (n : Int) :
    Prop :=
  tr.indexOf (degWrite axis n) < tr.indexOf (RotAction.posEvent axis n)

/-! ## rigif.py : RigIf -/

/-- The CAT operation codes of defs.py used by the rig interface. -/
inductive CatOp
  | lock
  | pttSet
  | pttGet
  | freqSet
  | modeSet
  | freqGet
  | modeGet
  | txStatus
deriving DecidableEq, BEq, Repr

/-- One entry of the CAT response queue: (result code, command, data). -/
abbrev CatReply := Bool × CatOp × String

/-- Observable actions of the rig interface, in program order. -/
inductive RigAction
  | catFreqSet (freq : String)
  | catFreqGet
  | catModeSet (mode : String)
  | catModeGet
  | catPttSet (key : Bool)
  | send (s : String)
  | freqCb (ptt : Bool) (freq : String)
  | logMsg (s : String)
deriving DecidableEq, BEq, Repr

/-- The mutable fields of RigIf touched by the embedded methods.
    __lastFreq is `none` until the first assignment: RigIf.__init__ never
    initialises it, and reading it then raises AttributeError. -/
structure RigState where
  ptt : Bool
  rigPtt : Bool
  lastFreq : Option String
  restart : Bool
deriving DecidableEq, BEq, Repr

/-- RigIf.__init__ field values. -/
def rigInit : RigState :=
  { ptt := false, rigPtt := false, lastFreq := none, restart := false }

/-- RigIf.manualSetPtt: record the operator PTT intent; on intent off,
    immediately unkey the rig. -/
def manualSetPtt (st : RigState) (ptt : Bool) : RigState × List RigAction :=
  let st1 := { st with ptt := ptt }
  if ptt then (st1, [])
  else ({ st1 with rigPtt := false }, [.catPttSet false])

/-- RigIf.__cat_response: pop CAT replies until one matches the expected
    operation.  An exhausted queue models the 5 s timeout.  Both the
    timeout branch and the mismatch branch call self.__msgq(...) — the
    deque object itself — which raises TypeError, so neither the intended
    timeout return of None nor the intended retry is ever reached; entries
    with a false result code are silently skipped. -/
def cat_response (command : CatOp) : List CatReply → Except PyError String
  | [] => .error (.typeError "deque object is not callable")
  | (r, cmd, data) :: rest =>
    if r then
      if cmd = command then .ok data
      else .error (.typeError "deque object is not callable")
    else cat_response command rest

/-- RigIf.__listenCallback, branch for code F (rigif.py lines 199-212):
    send CAT_FREQ_SET, acknowledge with RPRT 0, invoke the frequency
    callback; then, if the operator PTT intent is set and the frequency
    moved by more than 100000 Hz from the last commanded one, key the
    transmitter; finally record the new frequency.  Reading __lastFreq
    before any F command has completed raises AttributeError. -/
def rigHandleF (st : RigState) (freq : String) :
    RigState × List RigAction × Option PyError :=
  let tr : List RigAction :=
    [.catFreqSet freq, .send "RPRT 0\n", .freqCb st.ptt freq]
  if st.ptt then
    match pyInt? freq with
    | none => (st, tr, some (.valueError "invalid literal for int"))
    | some newHz =>
      match st.lastFreq with
      | none =>
        (st, tr, some (.attributeError "RigIf object has no attribute lastFreq"))
      | some lastS =>
        match pyInt? lastS with
        | none => (st, tr, some (.valueError "invalid literal for int"))
        | some lastHz =>
          if 100000 < (newHz - lastHz).natAbs then
            ({ st with rigPtt := true, lastFreq := some freq },
             tr ++ [.catPttSet true], none)
          else ({ st with lastFreq := some freq }, tr, none)
  else ({ st with lastFreq := some freq }, tr, none)

/-- RigIf.__listenCallback body inside the try block: tokenize the line
    (strip trailing newlines, split on single spaces, drop empty tokens)
    and dispatch on the command code.  arg1 is bound only when there are
    exactly two tokens and arg2 only when there are exactly three, exactly
    as the Python assignments do; using an unbound one raises NameError. -/
def rigListenBody (modeForId bwForMode : String → String)
    (catq : List CatReply) (st : RigState) (msg : String) :
    RigState × List RigAction × Option PyError :=
  if msg.length = 0 then (st, [], none)
  else
    let m := pyRstripNl msg
    let params := (pySplitChar m ' ').filter (fun t => t ≠ "")
    match params with
    | [] => (st, [], some .indexError)
    | code :: rest =>
      let arg1? : Option String :=
        if rest.length = 1 then rest.head? else none
      let arg2? : Option String :=
        if rest.length = 2 then rest.tail.head? else none
      if code = "F" then
        match arg1? with
        | none => (st, [], some (.nameError "name arg1 is not defined"))
        | some freq => rigHandleF st freq
      else if code = "f" then
        match cat_response .freqGet catq with
        | .ok f => (st, [.catFreqGet, .send (f ++ "\n")], none)
        | .error e => (st, [.catFreqGet], some e)
      else if code = "t" then
        if st.ptt then (st, [.send "1\n"], none)
        else (st, [.send "0\n"], none)
      else if code = "M" then
        match arg1? with
        | none => (st, [], some (.nameError "name arg1 is not defined"))
        | some mode =>
          match arg2? with
          | none => (st, [], some (.nameError "name arg2 is not defined"))
          | some _ => (st, [.catModeSet mode, .send "RPRT 0\n"], none)
      else if code = "m" then
        match cat_response .modeGet catq with
        | .ok d =>
          let smode := modeForId d
          (st, [.catModeGet, .send (smode ++ " " ++ bwForMode smode ++ "\n")],
           none)
        | .error e => (st, [.catModeGet], some e)
      else if code = "q" then
        ({ st with restart := true },
         [.logMsg "Request to quit from sat control program!",
          .send "RPRT 0\n"], none)
      else if code = "x" then
        ({ st with restart := true },
         [.logMsg "Rig listner requested exit!"], none)
      else
        (st,
         [.logMsg ("Unknown command from rig interface! [" ++ m ++ "]"),
          .send "RPRT 0\n"], none)

/-- RigIf.__listenCallback with its catch-all except clause: any exception
    from the body is logged (the traceback text is elided from the model)
    and a session restart is requested. -/
def rigListenCallback (modeForId bwForMode : String → String)
    (catq : List CatReply) (st : RigState) (msg : String) :
    RigState × List RigAction :=
  match rigListenBody modeForId bwForMode catq st msg with
  | (st1, tr, none) => (st1, tr)
  | (st1, tr, some e) =>
    ({ st1 with restart := true },
     tr ++ [.logMsg ("Problem with rig interface, error in callback [" ++
                     pyErrStr e ++ "]")])

/-! ## satif.py : SatIf -/

/-- Observable actions of the rotator protocol server, in program order. -/
inductive SatAction
  | cmdq (c : Command)
  | send (s : String)
  | posCb (az el : Int)
  | logMsg (s : String)
deriving DecidableEq, BEq, Repr

/-- The mutable fields of SatIf touched by the embedded methods. -/
structure SatState where
  azimuth : Int
  elevation : Int
  restart : Bool
deriving DecidableEq, BEq, Repr

/-- SatIf.__init__ field values. -/
def satInit : SatState := { azimuth := 0, elevation := 0, restart := false }

/-- SatIf.__listenCallback body inside the try block: tokenize the line on
    whitespace and dispatch.  For P the two arguments are parsed as floats
    and truncated to integers; the azimuth field is assigned before the
    elevation argument is parsed, exactly as the two Python assignments
    run.  A non-float argument raises ValueError, which is caught, but the
    except block references the undefined name paramList and so raises
    NameError out of the try. -/
def satListenBody (st : SatState) (msg : String) :
    SatState × List SatAction × Option PyError :=
  if msg.length = 0 then (st, [], none)
  else
    match pySplitWs msg with
    | [] => (st, [], some .indexError)
    | t0 :: rest =>
      if t0 = "p" then
        (st, [.cmdq (.getPos st.azimuth st.elevation)], none)
      else if t0 = "P" then
        match rest with
        | [sa, sb] =>
          match pyFloat? sa with
          | none => (st, [], some (.nameError "name paramList is not defined"))
          | some qa =>
            let az := pyTruncF qa
            let st1 := { st with azimuth := az }
            match pyFloat? sb with
            | none =>
              (st1, [], some (.nameError "name paramList is not defined"))
            | some qb =>
              let el := pyTruncF qb
              ({ st1 with elevation := el },
               [.cmdq (.setPosAz az), .cmdq (.setPosEl el), .posCb az el,
                .send "RPRT 0\n"], none)
        | _ =>
          (st,
           [.logMsg ("Invalid number of parameters for position command! [" ++
                     msg ++ "]")], none)
      else if t0 = "S" then
        (st, [.send "RPRT 0\n"], none)
      else if t0 = "q" then
        ({ st with restart := true },
         [.logMsg "Request to quit listening", .send "RPRT 0\n"], none)
      else if t0 = "x" then
        ({ st with restart := true },
         [.logMsg "Antenna listner requested exit!"], none)
      else
        (st,
         [.logMsg ("Unknown command from satellite program! [" ++ msg ++ "]"),
          .send "RPRT 0\n"], none)

/-- SatIf.__listenCallback with its catch-all except clause. -/
def satListenCallback (st : SatState) (msg : String) :
    SatState × List SatAction :=
  match satListenBody st msg with
  | (st1, tr, none) => (st1, tr)
  | (st1, tr, some e) =>
    ({ st1 with restart := true },
     tr ++ [.logMsg ("Problem with sat control, error in callback [" ++
                     pyErrStr e ++ "]")])

/-! ## Concrete inputs used by the witnesses -/

/-- A controller that acknowledges every command. -/
def envAck : Controller := fun _ => some "ack"

/-- A controller that never answers (every command times out). -/
def envSilent : Controller := fun _ => none

/-- A controller that acknowledges only the azimuth speed command. -/
def envAzOnly : Controller := fun c => if c = "30n" then some "ack" else none

/-- A saved calibration with both axes present. -/
def cfgSaved : CalConfig := { az := some 12345, el := some 6789 }

/-- A rotator state in the pending startup phase. -/
def rotPending : RotState := { rotInit with status := .pending }

/-- A rotator state online with both positions known. -/
def rotOnline : RotState :=
  { rotInit with status := .online, degaz := 0, degel := 0 }

/-! ## Helper lemmas -/

theorem data_append (s t : String) : (s ++ t).data = s.data ++ t.data := by
  cases s
  cases t
  rfl

theorem ne_append_single (t s u : String) (c : Char)
    (hu : u.data = [c]) (h : t.data.getLast? ≠ some c) : t ≠ s ++ u := by
  intro he
  apply h
  rw [he, data_append, hu]
  exact List.getLast?_concat _

theorem azSpeedCmd_eq : pyStr AZ_MOTOR_SPEED ++ "n" = "30n" := by decide

theorem elSpeedCmd_eq : pyStr EL_MOTOR_SPEED ++ "m" = "20m" := by decide

/-! ## The claims -/

/-- C2: the claim says a malformed rotator event datagram is logged as a
    warning and discarded without any error escaping the handler.  The
    state and sink are indeed untouched, but the code raises instead of
    logging: a non-integer value reaches the except block whose
    two-argument msgq.append raises TypeError, and a payload without ":"
    raises IndexError outside the try block.  The theorem evaluates the
    handler at both failing inputs. -/
theorem cl2_malformed_event :
    event_callback rotInit "az:1x" =
      (rotInit, [], some (.typeError "append takes exactly one argument")) ∧
    event_callback rotInit "position" = (rotInit, [], some .indexError) := by
  constructor
  · rfl
  · rfl

/-- C3: the claim says the CAT rendezvous logs and drops non-matching
    replies and keeps waiting, and returns no data on timeout.  In the code
    both the mismatch branch and the timeout branch call the msgq deque as
    a function, raising TypeError out of the handler; only the immediate
    match returns the payload.  The theorem evaluates the three cases. -/
theorem cl3_cat_rendezvous :
    cat_response .freqGet [(true, .modeGet, "fm")] =
      .error (.typeError "deque object is not callable") ∧
    cat_response .freqGet [] =
      .error (.typeError "deque object is not callable") ∧
    cat_response .freqGet [(true, .freqGet, "145800000")] =
      .ok "145800000" := by
  refine ⟨rfl, rfl, rfl⟩

/-- C5: getPos replies into the sink with the single two-line string built
    from the current position when online and from the hint values
    otherwise, succeeds, and leaves the rotator state unchanged. -/
theorem cl5_getPos (st : RotState) (az el : Int) :
    (st.status = .online →
      getPos st az el = (true, st, [posReply st.degaz st.degel])) ∧
    (st.status ≠ .online →
      getPos st az el = (true, st, [posReply az el])) := by
  constructor <;> intro h <;> simp [getPos, h]

/-- C5 witness: evaluate both branches at concrete states. -/
theorem cl5_getPos_witness :
    getPos { rotInit with status := .online, degaz := 123, degel := 45 }
        10 20 =
      (true, { rotInit with status := .online, degaz := 123, degel := 45 },
       ["123.000000\n45.000000\n"]) ∧
    getPos rotInit 10 20 = (true, rotInit, ["10.000000\n20.000000\n"]) := by
  constructor
  · exact ((cl5_getPos
      { rotInit with status := .online, degaz := 123, degel := 45 }
      10 20).1 rfl).trans (by decide)
  · exact ((cl5_getPos rotInit 10 20).2 (by decide)).trans (by decide)

/-- C7: the rotator client command exchange returns (false, "nak") exactly
    when the reply wait times out, returns (true, d) with d the decoded
    reply datagram otherwise, and no other result shape is possible. -/
theorem cl7_doCommand (env : Controller) (cmd : String) :
    (doCommand env cmd = (false, "nak") ↔ env cmd = none) ∧
    (∀ d, env cmd = some d → doCommand env cmd = (true, d)) ∧
    (doCommand env cmd = (false, "nak") ∨
      ∃ d, env cmd = some d ∧ doCommand env cmd = (true, d)) := by
  unfold doCommand
  cases h : env cmd with
  | none => simp
  | some d =>
    refine ⟨by simp, by simp, Or.inr ⟨d, rfl, rfl⟩⟩

/-- C7 witness: a silent controller yields (false, "nak"); an answering
    one yields (true, reply). -/
theorem cl7_doCommand_witness :
    doCommand envSilent "poll" = (false, "nak") ∧
    doCommand envAck "poll" = (true, "ack") := by
  constructor
  · exact (cl7_doCommand envSilent "poll").1.mpr rfl
  · exact (cl7_doCommand envAck "poll").2.1 "ack" rfl

/-- C8 counterexample: for the well-formed event "az:10" arriving with
    deg_az = 5, the handler trace is the sink callback followed by the
    deg_az write, so the deg_* update does not precede the sink
    observation as claimed. -/
theorem cl8_counterexample :
    (event_callback { rotInit with status := .online, degaz := 5 }
        "az:10").2.1 = [.posEvent "az" 10, .setDegAz 10] ∧
    ¬ updatedBeforeObserved
        (event_callback { rotInit with status := .online, degaz := 5 }
          "az:10").2.1 "az" 10 := by
  constructor
  · rfl
  · unfold updatedBeforeObserved degWrite
    decide

/-- C8 amended: for every well-formed position event, the PositionEvent is
    forwarded to the UI position sink first and the matching deg_* field is
    updated to n immediately afterwards (so the sink can observe a position
    not yet reflected in deg_*); after the handler returns, the field
    equals n. -/
theorem cl8_amended (st : RotState) (pos a v : String) (n : Int)
    (hsplit : pySplitColon2 pos = [a, v]) (hv : pyInt? v = some n) :
    (a = "az" →
      event_callback st pos =
        ({ st with degaz := n }, [.posEvent a n, .setDegAz n], none)) ∧
    (a = "el" →
      event_callback st pos =
        ({ st with degel := n }, [.posEvent a n, .setDegEl n], none)) := by
  constructor <;> intro h <;> subst h <;>
    simp [event_callback, hsplit, hv]

/-- C8 amended witness: the event "el:45" at the initial state. -/
theorem cl8_amended_witness :
    event_callback rotInit "el:45" =
      ({ rotInit with degel := 45 },
       [.posEvent "el" 45, .setDegEl 45], none) := by
  exact (cl8_amended rotInit "el:45" "el" "45" 45 (by decide) (by decide)).2
    rfl

/-- C9: whenever the status is not offline, homeAz (homeEl) zeroes deg_az
    (deg_el) and delivers the position event (axis, 0) to the sink,
    whatever the controller replied — including timeout and "nak". -/
theorem cl9_home (env : Controller) (st : RotState)
    (h : st.status ≠ .offline) :
    ((homeAz env st).2.1.degaz = 0 ∧
      (homeAz env st).2.2 =
        [.wire "homeaz", .setDegAz 0, .posEvent "az" 0]) ∧
    ((homeEl env st).2.1.degel = 0 ∧
      (homeEl env st).2.2 =
        [.wire "homeel", .setDegEl 0, .posEvent "el" 0]) := by
  simp [homeAz, homeEl, h]

/-- C9 witness: a silent controller (every home command times out) with an
    online state. -/
theorem cl9_home_witness :
    ((homeAz envSilent rotOnline).2.1.degaz = 0 ∧
      (homeAz envSilent rotOnline).2.2 =
        [.wire "homeaz", .setDegAz 0, .posEvent "az" 0]) ∧
    ((homeEl envSilent rotOnline).2.1.degel = 0 ∧
      (homeEl envSilent rotOnline).2.2 =
        [.wire "homeel", .setDegEl 0, .posEvent "el" 0]) := by
  exact cl9_home envSilent rotOnline (by decide)

/-- C10: the first F line handled with PTT intent already set reaches the
    uninitialised __lastFreq only after CAT_FREQ_SET, the RPRT 0 reply and
    the frequency callback have been issued; the AttributeError is absorbed
    by the catch-all, which logs it and requests a restart, and the rig is
    not keyed. -/
theorem cl10_first_F_with_ptt :
    rigListenCallback (fun s => s) (fun s => s) []
        (manualSetPtt rigInit true).1 "F 145800000\n" =
      ({ ptt := true, rigPtt := false, lastFreq := none, restart := true },
       [.catFreqSet "145800000", .send "RPRT 0\n", .freqCb true "145800000",
        .logMsg ("Problem with rig interface, error in callback [" ++
                 pyErrStr (.attributeError
                   "RigIf object has no attribute lastFreq") ++ "]")]) := by
  rfl

/-- C1: handling F freq with PTT intent true and an initialised last
    frequency: in every case the trace starts with CAT_FREQ_SET(freq), the
    RPRT 0 reply and the frequency callback, and the state records
    lastFreq = freq afterwards; CAT_PTT_SET(true) is sent and rig_ptt set
    exactly when the absolute frequency jump strictly exceeds 100000 Hz. -/
theorem cl1_pttCrossover (st : RigState) (freqS lastS : String)
    (newHz lastHz : Int) (hptt : st.ptt = true)
    (hlast : st.lastFreq = some lastS)
    (hf : pyInt? freqS = some newHz) (hl : pyInt? lastS = some lastHz) :
    (100000 < (newHz - lastHz).natAbs →
      rigHandleF st freqS =
        ({ st with rigPtt := true, lastFreq := some freqS },
         [.catFreqSet freqS, .send "RPRT 0\n", .freqCb true freqS,
          .catPttSet true], none)) ∧
    ((newHz - lastHz).natAbs ≤ 100000 →
      rigHandleF st freqS =
        ({ st with lastFreq := some freqS },
         [.catFreqSet freqS, .send "RPRT 0\n", .freqCb true freqS],
         none)) := by
  constructor <;> intro h
  · simp [rigHandleF, hptt, hlast, hf, hl, h]
  · simp [rigHandleF, hptt, hlast, hf, hl, Nat.not_lt.mpr h]

/-- C1 witness: from 145800000 Hz, a jump of 100001 Hz keys the rig and a
    jump of exactly 100000 Hz does not. -/
theorem cl1_pttCrossover_witness :
    rigHandleF
        { ptt := true, rigPtt := false, lastFreq := some "145800000",
          restart := false } "145900001" =
      ({ ptt := true, rigPtt := true, lastFreq := some "145900001",
         restart := false },
       [.catFreqSet "145900001", .send "RPRT 0\n", .freqCb true "145900001",
        .catPttSet true], none) ∧
    rigHandleF
        { ptt := true, rigPtt := false, lastFreq := some "145800000",
          restart := false } "145900000" =
      ({ ptt := true, rigPtt := false, lastFreq := some "145900000",
         restart := false },
       [.catFreqSet "145900000", .send "RPRT 0\n", .freqCb true "145900000"],
       none) := by
  constructor
  · exact (cl1_pttCrossover _ "145900001" "145800000" 145900001 145800000
      rfl rfl (by decide) (by decide)).1 (by decide)
  · exact (cl1_pttCrossover _ "145900000" "145800000" 145900000 145800000
      rfl rfl (by decide) (by decide)).2 (by decide)

/-- C4: a P line whose two arguments parse as floats makes the rotator
    protocol server truncate them toward zero, enqueue setPosAz then
    setPosEl with those integers and acknowledge with RPRT 0; executing the
    two queued commands with the position known and the rotator not offline
    puts exactly the datagrams az ++ "z" then el ++ "e" on the wire, in
    that order. -/
theorem cl4_setPosition (sst : SatState) (msg sa sb : String)
    (da db : DecFloat)
    (htoks : pySplitWs msg = ["P", sa, sb])
    (ha : pyFloat? sa = some da) (hb : pyFloat? sb = some db)
    (env : Controller) (rot : RotState) (hst : rot.status ≠ .offline)
    (haz : rot.degaz ≠ -1) (hel : rot.degel ≠ -1)
    (hr1 : 0 ≤ pyTruncF da) (hr2 : pyTruncF da < 360)
    (hr3 : 0 ≤ pyTruncF db) (hr4 : pyTruncF db ≤ 90) :
    satListenCallback sst msg =
      ({ sst with azimuth := pyTruncF da, elevation := pyTruncF db },
       [.cmdq (.setPosAz (pyTruncF da)), .cmdq (.setPosEl (pyTruncF db)),
        .posCb (pyTruncF da) (pyTruncF db), .send "RPRT 0\n"]) ∧
    wires (execCommands env rot
        [.setPosAz (pyTruncF da), .setPosEl (pyTruncF db)]).2.1 =
      [pyStr (pyTruncF da) ++ "z", pyStr (pyTruncF db) ++ "e"] := by
  have hlen : ¬ msg.length = 0 := by
    intro h0
    obtain ⟨d⟩ := msg
    have hd : d = [] := List.length_eq_zero.mp h0
    subst hd
    rw [show pySplitWs ⟨[]⟩ = [] from rfl] at htoks
    exact List.noConfusion htoks
  constructor
  · have hbody : satListenBody sst msg =
        ({ sst with azimuth := pyTruncF da, elevation := pyTruncF db },
         [.cmdq (.setPosAz (pyTruncF da)), .cmdq (.setPosEl (pyTruncF db)),
          .posCb (pyTruncF da) (pyTruncF db), .send "RPRT 0\n"], none) := by
      simp [satListenBody, hlen, htoks, ha, hb]
    simp [satListenCallback, hbody]
  · simp [execCommands, execCommand, setPosAz, setPosEl, haz, hel, hst,
      wires]

/-- C4 witness: the tracker line P 123.4 45.6 against an online rotator
    with known position and an acknowledging controller. -/
theorem cl4_setPosition_witness :
    satListenCallback satInit "P 123.4 45.6\n" =
      ({ azimuth := 123, elevation := 45, restart := false },
       [.cmdq (.setPosAz 123), .cmdq (.setPosEl 45), .posCb 123 45,
        .send "RPRT 0\n"]) ∧
    wires (execCommands envAck rotOnline
        [.setPosAz 123, .setPosEl 45]).2.1 = ["123z", "45e"] := by
  have h := cl4_setPosition satInit "P 123.4 45.6\n" "123.4" "45.6"
    ⟨1234, 1⟩ ⟨456, 1⟩ (by decide) (by decide) (by decide)
    envAck rotOnline (by decide) (by decide) (by decide)
    (by decide) (by decide) (by decide) (by decide)
  refine ⟨h.1.trans ?_, h.2.trans ?_⟩ <;> decide

/-- C6: cold start returns without action when offline; a timeout or nak
    while setting the azimuth or the elevation motor speed transitions to
    cal-failed and aborts; with both saved calibration values present no
    calaz or calel datagram is ever sent; and when every step succeeds the
    wire carries exactly the two speed commands and the two presets and the
    status transitions to online. -/
theorem cl6_coldStart (env : Controller) (cfg : CalConfig) (st : RotState) :
    (st.status = .offline → coldStart env cfg st = (true, st, [])) ∧
    (st.status ≠ .offline → (env "30n" = none ∨ env "30n" = some "nak") →
      coldStart env cfg st =
        (false, { st with status := .calFailed },
         [.wire "30n", .logMsg "Failed to set azimuth motor speed!",
          .stateCb .calFailed])) ∧
    (st.status ≠ .offline → ∀ d1, env "30n" = some d1 → d1 ≠ "nak" →
      (env "20m" = none ∨ env "20m" = some "nak") →
      coldStart env cfg st =
        (false, { st with status := .calFailed },
         [.wire "30n", .wire "20m",
          .logMsg "Failed to set elevation motor speed!",
          .stateCb .calFailed])) ∧
    (∀ a b, cfg.az = some a → cfg.el = some b →
      RotAction.wire "calaz" ∉ (coldStart env cfg st).2.2 ∧
      RotAction.wire "calel" ∉ (coldStart env cfg st).2.2) ∧
    (∀ a b d1 d2 d3 d4, cfg.az = some a → cfg.el = some b →
      st.status ≠ .offline →
      env "30n" = some d1 → d1 ≠ "nak" →
      env "20m" = some d2 → d2 ≠ "nak" →
      env (pyStr a ++ "a") = some d3 → d3 ≠ "nak" →
      env (pyStr b ++ "b") = some d4 → d4 ≠ "nak" →
      coldStart env cfg st =
        (true, { st with status := .online },
         [.wire "30n", .wire "20m", .wire (pyStr a ++ "a"),
          .wire (pyStr b ++ "b"), .stateCb .online])) := by
  refine ⟨?_, ?_, ?_, ?_, ?_⟩
  · intro h
    simp [coldStart, h]
  · intro h henv
    rcases henv with h1 | h1 <;>
      simp [coldStart, setAzSpeed, doCommand, h, h1, azSpeedCmd_eq]
  · intro h d1 h1 hd1 henv
    rcases henv with h2 | h2 <;>
      simp [coldStart, setAzSpeed, setElSpeed, doCommand, h, h1, hd1, h2,
        azSpeedCmd_eq, elSpeedCmd_eq]
  · intro a b hca hcb
    have hA : ("calaz" : String) ≠ pyStr a ++ "a" :=
      ne_append_single _ _ _ 'a' rfl (by decide)
    have hB : ("calaz" : String) ≠ pyStr b ++ "b" :=
      ne_append_single _ _ _ 'b' rfl (by decide)
    have hC : ("calel" : String) ≠ pyStr a ++ "a" :=
      ne_append_single _ _ _ 'a' rfl (by decide)
    have hD : ("calel" : String) ≠ pyStr b ++ "b" :=
      ne_append_single _ _ _ 'b' rfl (by decide)
    by_cases h0 : st.status = .offline
    · simp [coldStart, h0]
    · simp only [coldStart, setAzSpeed, setElSpeed, setCalAz, setCalEl,
        hca, hcb, h0, if_false, azSpeedCmd_eq, elSpeedCmd_eq]
      split_ifs <;>
        simp [hA, hB, hC, hD, azSpeedCmd_eq, elSpeedCmd_eq]
  · intro a b d1 d2 d3 d4 hca hcb h0 h1 hd1 h2 hd2 h3 hd3 h4 hd4
    simp [coldStart, setAzSpeed, setElSpeed, setCalAz, setCalEl, doCommand,
      h0, hca, hcb, h1, hd1, h2, hd2, h3, hd3, h4, hd4,
      azSpeedCmd_eq, elSpeedCmd_eq]

/-- C6 witness: spec scenario 1 — saved calibration 12345 / 6789, every
    reply "ack" — plus the offline no-op and the two speed-failure
    aborts. -/
theorem cl6_coldStart_witness :
    coldStart envAck cfgSaved rotInit = (true, rotInit, []) ∧
    coldStart envSilent cfgSaved rotPending =
      (false, { rotPending with status := .calFailed },
       [.wire "30n", .logMsg "Failed to set azimuth motor speed!",
        .stateCb .calFailed]) ∧
    coldStart envAzOnly cfgSaved rotPending =
      (false, { rotPending with status := .calFailed },
       [.wire "30n", .wire "20m",
        .logMsg "Failed to set elevation motor speed!",
        .stateCb .calFailed]) ∧
    (RotAction.wire "calaz" ∉ (coldStart envAck cfgSaved rotPending).2.2 ∧
      RotAction.wire "calel" ∉ (coldStart envAck cfgSaved rotPending).2.2) ∧
    coldStart envAck cfgSaved rotPending =
      (true, { rotPending with status := .online },
       [.wire "30n", .wire "20m", .wire "12345a", .wire "6789b",
        .stateCb .online]) := by
  refine ⟨?_, ?_, ?_, ?_, ?_⟩
  · exact (cl6_coldStart envAck cfgSaved rotInit).1 rfl
  · exact (cl6_coldStart envSilent cfgSaved rotPending).2.1 (by decide)
      (Or.inl rfl)
  · exact (cl6_coldStart envAzOnly cfgSaved rotPending).2.2.1 (by decide)
      "ack" (by decide) (by decide) (Or.inl (by decide))
  · exact (cl6_coldStart envAck cfgSaved rotPending).2.2.2.1 12345 6789
      rfl rfl
  · exact ((cl6_coldStart envAck cfgSaved rotPending).2.2.2.2 12345 6789
      "ack" "ack" "ack" "ack" rfl rfl (by decide) rfl (by decide) rfl
      (by decide) rfl (by decide) rfl (by decide)).trans (by decide)

end MiniSat
